import Mathlib

/-!
Verification of the training script `train.py` of the Progetto_ML repository.

The script's decision logic is shallowly embedded here:
* Python floats that appear in the model-selection logic (finite values and the
  `float("inf")` / `float("-inf")` sentinels; NaN never arises in this logic)
  are modelled by the inductive type `PyFloat` over exact rationals.
* Python `int(...)` truncation toward zero is `int_trunc`.
* Python true division that can raise `ZeroDivisionError` is modelled with
  `Option`: `none` models the raised exception.
* The training loop and the orchestrator's epoch loop are modelled as folds /
  recursions over explicit state, parametrised over the opaque numeric parts
  (forward pass, optimizer update), which are external collaborators.
-/

/-- Python float values occurring in the selector logic: `-inf`, finite
rationals, `+inf`. -/
inductive PyFloat where
  | ninf : PyFloat
  | finite (q : ℚ) : PyFloat
  | inf : PyFloat
deriving DecidableEq, Repr

/-- Python `<=` on `PyFloat` (total order, no NaN). -/
def pyLe : PyFloat → PyFloat → Bool
  | PyFloat.ninf, _ => true
  | PyFloat.finite _, PyFloat.ninf => false
  | PyFloat.finite a, PyFloat.finite b => decide (a ≤ b)
  | PyFloat.finite _, PyFloat.inf => true
  | PyFloat.inf, PyFloat.inf => true
  | PyFloat.inf, _ => false

/-- Python `<` on `PyFloat` (total order, no NaN). -/
def pyLt : PyFloat → PyFloat → Bool
  | PyFloat.ninf, PyFloat.ninf => false
  | PyFloat.ninf, _ => true
  | PyFloat.finite _, PyFloat.ninf => false
  | PyFloat.finite a, PyFloat.finite b => decide (a < b)
  | PyFloat.finite _, PyFloat.inf => true
  | PyFloat.inf, _ => false

/-- Python `min(a, b)` on two floats: returns `b` exactly when `b < a`. -/
def pyMin (a b : PyFloat) : PyFloat := if pyLt b a then b else a

/-- Python `max(a, b)` on two floats: returns `b` exactly when `a < b`. -/
def pyMax (a b : PyFloat) : PyFloat := if pyLt a b then b else a

/-- The metric names produced by the Metric Computer (`metrics.py` exposes at
least loss and accuracy; the selector only looks one key up). -/
inductive EvaluationMetric where
  | loss : EvaluationMetric
  | accuracy : EvaluationMetric
deriving DecidableEq, Repr

/-- A `Metrics` mapping: metric name to scalar value
(`train.py` reads `val_metrics[evaluation_metric]`). -/
def Metrics : Type := EvaluationMetric → PyFloat

/-- Embedding of `manage_best_model_and_metrics` (train.py lines 53-73).
`metric = val_metrics[evaluation_metric]`; if `lower_is_better` the candidate
wins when `metric <= best_val_metric`, otherwise when `metric > best_val_metric`
(i.e. `best_val_metric < metric`); on a win it returns `(metric, model)`,
otherwise `(best_val_metric, best_model)`. The winning `print` is a pure
observability side effect and is not part of the returned state. -/
def manage_best_model_and_metrics {M : Type} (model : M)
    (evaluation_metric : EvaluationMetric) (val_metrics : Metrics)
    (best_val_metric : PyFloat) (best_model : M) ( lower_is_better : Bool) :
    PyFloat × M :=
  let metric := val_metrics evaluation_metric
  let is_best :=
    if lower_is_better then pyLe metric best_val_metric
    else pyLt best_val_metric metric
  if is_best then (metric, model) else (best_val_metric, best_model)

/-- Python `int(q)`: truncation toward zero. -/
def int_trunc (q : ℚ) : ℤ := if 0 ≤ q then ⌊q⌋ else ⌈q⌉

/-- Embedding of `lr_warmup_linear_decay` (train.py lines 123-124), closed over
`warmup_steps` and `total_steps`, here taken as explicit parameters.  `step` is
a Python `int` (ℤ).  Python true division raising `ZeroDivisionError` on a zero
denominator is modelled by `none`; otherwise the exact rational value is
returned. -/
def lr_warmup_linear_decay (warmup_steps total_steps : ℤ) (step : ℤ) :
    Option ℚ :=
  if step < warmup_steps then
    if warmup_steps = 0 then none
    else some ((step : ℚ) / (warmup_steps : ℚ))
  else
    if total_steps - warmup_steps = 0 then none
    else some (max 0 (((total_steps : ℚ) - (step : ℚ)) /
      ((total_steps : ℚ) - (warmup_steps : ℚ))))

/-- `warmup_steps = int(total_steps * warmup_ratio)` (train.py line 121). -/
def warmup_steps_of (total_steps : ℤ) (warmup_ratio : ℚ) : ℤ :=
  int_trunc ((total_steps : ℚ) * warmup_ratio)

/-- The dataset split-size arithmetic of train.py lines 88-94:
`train_size = int(train_ratio * dataset_size)`;
`test_val_size = dataset_size - train_size`;
`test_size = int(test_val_size * test_val_ratio)`;
`val_size = test_val_size - test_size`.
Returns `(train_size, test_size, val_size)`. -/
def split_sizes (dataset_size : ℤ) (train_ratio test_val_ratio : ℚ) :
    ℤ × ℤ × ℤ :=
  let train_size := int_trunc (train_ratio * (dataset_size : ℚ))
  let test_val_size := dataset_size - train_size
  let test_size := int_trunc ((test_val_size : ℚ) * test_val_ratio)
  let val_size := test_val_size - test_size
  (train_size, test_size, val_size)

/-- State threaded through the batch loop of `train_one_epoch`
(train.py lines 25-49): model parameters, the scheduler's cumulative step
counter, the running loss, and the flattened prediction/reference lists. -/
structure TrainLoopState (P : Type) where
  params : P
  scheduler_steps : ℕ
  running_loss : ℚ
  predictions : List ℤ
  references : List ℤ
deriving Repr

/-- The external numeric collaborators of one batch iteration: the combined
effect on the parameters of `loss.backward(); optimizer.step()`, the scalar
`loss.item()`, the argmax predictions of the forward pass, and the batch's
labels. -/
structure BatchOps (P B : Type) where
  opt_step : P → B → P
  batch_loss : P → B → ℚ
  batch_preds : P → B → List ℤ
  batch_labels : B → List ℤ

/-- One iteration of the batch loop of `train_one_epoch` (train.py lines
30-49): zero_grad / forward / loss / backward / `optimizer.step()`, then
`scheduler.step()` (the counter advances by exactly one), then the running-loss
and prediction/reference accumulation. -/
def train_batch {P B : Type} (ops : BatchOps P B) (s : TrainLoopState P)
    (batch : B) : TrainLoopState P :=
  { params := ops.opt_step s.params batch
    scheduler_steps := s.scheduler_steps + 1
    running_loss := s.running_loss + ops.batch_loss s.params batch
    predictions := s.predictions ++ ops.batch_preds s.params batch
    references := s.references ++ ops.batch_labels batch }

/-- `train_one_epoch` (train.py lines 17-51) as a fold of `train_batch` over
the epoch's batches. -/
def train_one_epoch {P B : Type} (ops : BatchOps P B) (s : TrainLoopState P)
    (batches : List B) : TrainLoopState P :=
  batches.foldl (train_batch ops) s

/-- `total_steps = len(train_dl) * epochs` (train.py line 119), computed once
before training starts. -/
def total_steps_of (train_loader_len epochs : ℕ) : ℕ :=
  train_loader_len * epochs

/-- `len(dataloader)` for a torch `DataLoader` with `drop_last=False` (the
script's loaders): the number of batches, `ceil(n / batch_size)`. -/
def loader_len (n batch_size : ℕ) : ℕ := (n + batch_size - 1) / batch_size

/-- Initialization of the best-model tracking state (train.py lines 129-131):
`best_val_metric = float("inf") if best_metric_lower_is_better else
float("-inf")`; `best_model = model`. -/
def initial_best {M : Type} ( lower_is_better : Bool) (model : M) :
    PyFloat × M :=
  (if lower_is_better then PyFloat.inf else PyFloat.ninf, model)

/-- The best-model tracking state after `n` iterations of the epoch loop
(train.py lines 142-163): each iteration makes exactly one call to
`manage_best_model_and_metrics` with that epoch's validation metrics and the
live model.  `val_metrics_at e` are the validation metrics produced by the
Evaluator in epoch `e`, and `model_at e` is the live model reference there
(in the source it is always the same object). -/
def epoch_loop_best {M : Type} ( lower_is_better : Bool)
    (evaluation_metric : EvaluationMetric) (val_metrics_at : ℕ → Metrics)
    (model_at : ℕ → M) (init : PyFloat × M) : ℕ → PyFloat × M
  | 0 => init
  | n + 1 =>
    let prev := epoch_loop_best lower_is_better evaluation_metric
      val_metrics_at model_at init n
    manage_best_model_and_metrics (model_at n) evaluation_metric
      (val_metrics_at n) prev.1 prev.2 lower_is_better

/-- Heap update for the aliasing analysis of the best-model reference: models
an in-place parameter update of the model object referred to by `r`. -/
def set_param {D : Type} (heap : ℕ → D) (r : ℕ) (d : D) : ℕ → D :=
  fun x => if x = r then d else heap x

/-- A flat filesystem for the persistence phase: the set of existing
directories and a partial map from paths to written contents. -/
structure FileSystem (D : Type) where
  dirs : List String
  files : String → Option D

/-- `os.makedirs(dir, exist_ok=True)` (train.py line 174): creates the
directory, no error when it already exists. -/
def fs_makedirs {D : Type} (fs : FileSystem D) (dir : String) : FileSystem D :=
  { fs with dirs := if dir ∈ fs.dirs then fs.dirs else dir :: fs.dirs }

/-- `torch.save(data, path)` (train.py line 175): writes `data` at `path`,
overwriting whatever was there. -/
def fs_save {D : Type} (fs : FileSystem D) (path : String) (data : D) :
    FileSystem D :=
  { fs with files := fun p => if p = path then some data else fs.files p }

/-- Observable events of the final phase, used to pin down how often and on
which model the Evaluator runs. -/
inductive RunEvent (M D : Type) where
  | evaluate_model (m : M) : RunEvent M D
  | make_dir (dir : String) : RunEvent M D
  | save_file (path : String) (data : D) : RunEvent M D

/-- The tail of `__main__` after the epoch loop (train.py lines 166-175):
evaluate the retained best model once on the test partition, create the
checkpoint directory, and save `best_model.state_dict()` to
`checkpoint_dir ++ "/" ++ model_name ++ ".pt"`.  `evaluate` is the Evaluator
applied to the test loader and `state_of` is `state_dict`; both are external
collaborators.  Returns the test metrics, the filesystem after the writes, and
the event trace. -/
def final_test_and_persist {M D : Type} (evaluate : M → Metrics)
    (state_of : M → D) (best_model : M) (checkpoint_dir model_name : String)
    (fs : FileSystem D) : Metrics × FileSystem D × List (RunEvent M D) :=
  let test_metrics := evaluate best_model
  let fs1 := fs_makedirs fs checkpoint_dir
  let path := checkpoint_dir ++ "/" ++ model_name ++ ".pt"
  let fs2 := fs_save fs1 path (state_of best_model)
  (test_metrics, fs2,
    [RunEvent.evaluate_model best_model, RunEvent.make_dir checkpoint_dir,
     RunEvent.save_file path (state_of best_model)])

/-- Whether an event is an Evaluator invocation. -/
def RunEvent.isEval {M D : Type} : RunEvent M D → Bool
  | RunEvent.evaluate_model _ => true
  | _ => false

/-! ## Helper lemmas about the `PyFloat` order -/

theorem pyLe_refl (a : PyFloat) : pyLe a a = true := by
  cases a <;> simp [pyLe]

theorem pyLt_irrefl (a : PyFloat) : pyLt a a = false := by
  cases a <;> simp [pyLt]

theorem pyLe_eq_not_pyLt (a b : PyFloat) : pyLe a b = !pyLt b a := by
  cases a <;> cases b <;>
    simp [pyLe, pyLt, ← decide_not, decide_eq_decide, not_lt]

theorem pyLt_asymm_false (a b : PyFloat) (h : pyLt a b = true) :
    pyLt b a = false := by
  cases a <;> cases b <;> simp_all [pyLt]
  linarith

theorem pyLt_antisymm_eq (a b : PyFloat) (h1 : pyLt a b = false)
    (h2 : pyLt b a = false) : a = b := by
  cases a <;> cases b <;> simp_all [pyLt]
  linarith

theorem pyLe_pyMin_right (a b : PyFloat) : pyLe (pyMin a b) b = true := by
  unfold pyMin
  by_cases h : pyLt b a = true
  · rw [if_pos h]
    exact pyLe_refl b
  · rw [if_neg h, pyLe_eq_not_pyLt]
    simp_all

theorem pyLe_pyMax_right (a b : PyFloat) : pyLe b (pyMax a b) = true := by
  unfold pyMax
  by_cases h : pyLt a b = true
  · rw [if_pos h]
    exact pyLe_refl b
  · rw [if_neg h, pyLe_eq_not_pyLt]
    simp_all

/-! ## Claim theorems -/

/-- C1: Model Selector tie-breaking is asymmetric.  With `lower_is_better =
true` the candidate wins exactly when `metric <= best_val_metric` (non-strict:
an equal metric selects the newer model); with `lower_is_better = false` it
wins exactly when `metric > best_val_metric` (strict: an equal metric keeps the
old best).  On a win the result is `(metric, model)`; otherwise
`(best_val_metric, best_model)` unchanged. -/
theorem manage_best_asymmetric_ties {M : Type} (model best_model : M)
    (em : EvaluationMetric) (vm : Metrics) (best : PyFloat) (lower : Bool) :
    manage_best_model_and_metrics model em vm best best_model lower =
      (if (if lower then pyLe (vm em) best else pyLt best (vm em)) then
        (vm em, model)
      else (best, best_model)) ∧
    manage_best_model_and_metrics model em vm (vm em) best_model true =
      (vm em, model) ∧
    manage_best_model_and_metrics model em vm (vm em) best_model false =
      (vm em, best_model) := by
  refine ⟨rfl, ?_, ?_⟩
  · simp [manage_best_model_and_metrics, pyLe_refl]
  · simp [manage_best_model_and_metrics, pyLt_irrefl]

/-- C4: with `warmup_steps == 0` the warmup branch's `step / warmup_steps`
is unguarded: there is a step input (any negative Python int, so that
`step < warmup_steps` selects the warmup branch) on which evaluation raises
`ZeroDivisionError` (modelled as `none`). -/
theorem lr_warmup_zero_division_unguarded (total_steps : ℤ) :
    ∃ step : ℤ, step < 0 ∧
      lr_warmup_linear_decay 0 total_steps step = none := by
  refine ⟨-1, by omega, ?_⟩
  unfold lr_warmup_linear_decay
  rw [if_pos (by omega), if_pos rfl]

/-- C5: on a winning selection the returned best model is the very reference
passed in as `model` (no deep copy), so a later in-place parameter update of
the live model object is seen through the retained best-model reference. -/
theorem best_model_is_alias (model best_model : ℕ) (em : EvaluationMetric)
    (vm : Metrics) (best : PyFloat) (lower : Bool)
    (hwin : (if lower then pyLe (vm em) best else pyLt best (vm em)) = true) :
    (manage_best_model_and_metrics model em vm best best_model lower).2 =
      model ∧
    ∀ (D : Type) (heap : ℕ → D) (d : D),
      set_param heap model d
        ((manage_best_model_and_metrics model em vm best best_model
          lower).2) = d := by
  have h2 : (manage_best_model_and_metrics model em vm best best_model
      lower).2 = model := by
    simp only [manage_best_model_and_metrics]
    rw [hwin]
    simp
  refine ⟨h2, ?_⟩
  intro D heap d
  rw [h2]
  simp [set_param]

/-- Witness for C5 at a concrete winning input: model reference `7`, best value
`+inf`, candidate `1`, `lower_is_better = true`; the returned best model is
reference `7`, and a subsequent in-place update at reference `7` is visible
through it. -/
theorem best_model_is_alias_witness :
    (if true then pyLe (PyFloat.finite 1) PyFloat.inf
      else pyLt PyFloat.inf (PyFloat.finite 1)) = true ∧
    (manage_best_model_and_metrics 7 EvaluationMetric.loss
      (fun _ => PyFloat.finite 1) PyFloat.inf 3 true).2 = 7 ∧
    set_param (fun _ => (0 : ℤ)) 7 42
      ((manage_best_model_and_metrics 7 EvaluationMetric.loss
        (fun _ => PyFloat.finite 1) PyFloat.inf 3 true).2) = 42 := by
  have h := best_model_is_alias 7 3 EvaluationMetric.loss
    (fun _ => PyFloat.finite 1) PyFloat.inf true (by decide)
  exact ⟨by decide, h.1, h.2 ℤ (fun _ => 0) 42⟩

/-- C6: the scheduler's step counter advances by exactly one per batch
(`scheduler.step()` sits inside the batch loop), so one epoch over `B` batches
advances it by exactly `B`; `total_steps` is `len(train_dl) * epochs`; and in
the spec scenario (70 training samples, batch size 10, 1 epoch) the epoch
advances the scheduler by exactly 7 steps. -/
theorem scheduler_steps_once_per_batch :
    (∀ (P B : Type) (ops : BatchOps P B) (s : TrainLoopState P)
      (batches : List B),
      (train_one_epoch ops s batches).scheduler_steps =
        s.scheduler_steps + batches.length) ∧
    (∀ n e : ℕ, total_steps_of n e = n * e) ∧
    total_steps_of (loader_len 70 10) 1 = 7 := by
  refine ⟨?_, fun n e => rfl, rfl⟩
  intro P B ops s batches
  induction batches generalizing s with
  | nil => rfl
  | cons b bs ih =>
    have hstep : train_one_epoch ops s (b :: bs) =
        train_one_epoch ops (train_batch ops s b) bs := rfl
    rw [hstep, ih]
    simp [train_batch]
    omega

/-- C7: the best-model tracking state is initialized before the epoch loop to
`(+inf, initial model)` when `lower_is_better` and `(-inf, initial model)`
otherwise, and each epoch-loop iteration updates it by exactly one call to
`manage_best_model_and_metrics`. -/
theorem best_state_init_and_once_per_epoch :
    (∀ (M : Type) (model : M) (em : EvaluationMetric) (vm : ℕ → Metrics)
      (ma : ℕ → M),
      epoch_loop_best true em vm ma (initial_best true model) 0 =
        (PyFloat.inf, model) ∧
      epoch_loop_best false em vm ma (initial_best false model) 0 =
        (PyFloat.ninf, model)) ∧
    (∀ (M : Type) (lower : Bool) (em : EvaluationMetric) (vm : ℕ → Metrics)
      (ma : ℕ → M) (init : PyFloat × M) (n : ℕ),
      epoch_loop_best lower em vm ma init (n + 1) =
        manage_best_model_and_metrics (ma n) em (vm n)
          (epoch_loop_best lower em vm ma init n).1
          (epoch_loop_best lower em vm ma init n).2 lower) :=
  ⟨fun _ _ _ _ _ => ⟨rfl, rfl⟩, fun _ _ _ _ _ _ _ => rfl⟩

/-- C8: after the epoch loop, the Evaluator runs exactly once, on the retained
best model; the test metrics returned are the Evaluator's output on that model;
the checkpoint directory is created if absent; and the best model's parameters
are written at `checkpoint_dir ++ "/" ++ model_name ++ ".pt"`, overwriting any
previous contents of that path (the final filesystem maps the path to the new
snapshot regardless of the initial filesystem). -/
theorem final_eval_once_and_persist {M D : Type} (evaluate : M → Metrics)
    (state_of : M → D) (best_model : M) (checkpoint_dir model_name : String)
    (fs : FileSystem D) :
    (final_test_and_persist evaluate state_of best_model checkpoint_dir
      model_name fs).1 = evaluate best_model ∧
    ((final_test_and_persist evaluate state_of best_model checkpoint_dir
      model_name fs).2.2.filter RunEvent.isEval) =
      [RunEvent.evaluate_model best_model] ∧
    checkpoint_dir ∈ (final_test_and_persist evaluate state_of best_model
      checkpoint_dir model_name fs).2.1.dirs ∧
    (final_test_and_persist evaluate state_of best_model checkpoint_dir
      model_name fs).2.1.files
      (checkpoint_dir ++ "/" ++ model_name ++ ".pt") =
      some (state_of best_model) := by
  refine ⟨rfl, rfl, ?_, ?_⟩
  · simp only [final_test_and_persist, fs_save, fs_makedirs]
    split
    · assumption
    · exact List.mem_cons_self _ _
  · simp [final_test_and_persist, fs_save]

/-- C2: for `0 < warmup_steps < total_steps`, the multiplier is 0 at step 0,
equals `step / warmup_steps` below `warmup_steps`, is exactly 1 at
`step = warmup_steps`, decays linearly as
`(total_steps - step) / (total_steps - warmup_steps)` up to `total_steps`,
is exactly 0 at `total_steps`, and is clamped at 0 beyond `total_steps`. -/
theorem lr_warmup_linear_decay_shape (w t : ℤ) (hw : 0 < w) (hwt : w < t) :
    lr_warmup_linear_decay w t 0 = some 0 ∧
    (∀ s : ℤ, s < w →
      lr_warmup_linear_decay w t s = some ((s : ℚ) / (w : ℚ))) ∧
    lr_warmup_linear_decay w t w = some 1 ∧
    (∀ s : ℤ, w ≤ s → s ≤ t →
      lr_warmup_linear_decay w t s =
        some (((t : ℚ) - (s : ℚ)) / ((t : ℚ) - (w : ℚ)))) ∧
    lr_warmup_linear_decay w t t = some 0 ∧
    (∀ s : ℤ, t < s → lr_warmup_linear_decay w t s = some 0) := by
  have hwQ : (0 : ℚ) < (w : ℚ) := by exact_mod_cast hw
  have hwtQ : (w : ℚ) < (t : ℚ) := by exact_mod_cast hwt
  have hden : (t : ℚ) - (w : ℚ) ≠ 0 := sub_ne_zero.mpr (ne_of_gt hwtQ)
  have hwarm : ∀ s : ℤ, s < w →
      lr_warmup_linear_decay w t s = some ((s : ℚ) / (w : ℚ)) := by
    intro s hs
    unfold lr_warmup_linear_decay
    rw [if_pos hs, if_neg (by omega)]
  have hdecay : ∀ s : ℤ, w ≤ s →
      lr_warmup_linear_decay w t s =
        some (max 0 (((t : ℚ) - (s : ℚ)) / ((t : ℚ) - (w : ℚ)))) := by
    intro s hs
    unfold lr_warmup_linear_decay
    rw [if_neg (by omega), if_neg (by omega)]
  have hmid : ∀ s : ℤ, w ≤ s → s ≤ t →
      lr_warmup_linear_decay w t s =
        some (((t : ℚ) - (s : ℚ)) / ((t : ℚ) - (w : ℚ))) := by
    intro s hs hst
    rw [hdecay s hs]
    have hstQ : (s : ℚ) ≤ (t : ℚ) := by exact_mod_cast hst
    have : max 0 (((t : ℚ) - (s : ℚ)) / ((t : ℚ) - (w : ℚ))) =
        ((t : ℚ) - (s : ℚ)) / ((t : ℚ) - (w : ℚ)) :=
      max_eq_right (div_nonneg (by linarith) (by linarith))
    rw [this]
  refine ⟨?_, hwarm, ?_, hmid, ?_, ?_⟩
  · rw [hwarm 0 hw]
    norm_num
  · rw [hdecay w le_rfl, div_self hden]
    norm_num
  · rw [hmid t (le_of_lt hwt) le_rfl]
    norm_num
  · intro s hs
    rw [hdecay s (by omega)]
    have hstQ : (t : ℚ) < (s : ℚ) := by exact_mod_cast hs
    have hnp : ((t : ℚ) - (s : ℚ)) / ((t : ℚ) - (w : ℚ)) ≤ 0 := by
      rw [div_nonpos_iff]
      right
      constructor <;> linarith
    rw [max_eq_left hnp]

/-- Witness for C2 at the spec's scenario: `warmup_ratio = 0.1`,
`total_steps = 100` gives `warmup_steps = 10`; the multiplier is `5/10 = 0.5`
at step 5, `1` at step 10, `45/90 = 0.5` at step 55, and `0` at step 100. -/
theorem lr_warmup_linear_decay_shape_witness :
    (0 : ℤ) < 10 ∧ (10 : ℤ) < 100 ∧
    warmup_steps_of 100 (1 / 10) = 10 ∧
    lr_warmup_linear_decay 10 100 5 = some ((5 : ℚ) / (10 : ℚ)) ∧
    lr_warmup_linear_decay 10 100 10 = some 1 ∧
    lr_warmup_linear_decay 10 100 55 =
      some (((100 : ℚ) - (55 : ℚ)) / ((100 : ℚ) - (10 : ℚ))) ∧
    lr_warmup_linear_decay 10 100 100 = some 0 := by
  have h := lr_warmup_linear_decay_shape 10 100 (by decide) (by decide)
  exact ⟨by decide, by decide, by norm_num [warmup_steps_of, int_trunc],
    h.2.1 5 (by decide), h.2.2.1,
    h.2.2.2.1 55 (by decide) (by decide), h.2.2.2.2.1⟩

/-- C3: for any dataset size and ratios in (0,1), the three split sizes sum
exactly to the dataset size (validation absorbs the rounding remainder by
construction). -/
theorem split_sizes_sum (N : ℤ) (r1 r2 : ℚ) (h1 : 0 < r1) (h2 : r1 < 1)
    (h3 : 0 < r2) (h4 : r2 < 1) :
    (split_sizes N r1 r2).1 + (split_sizes N r1 r2).2.1 +
      (split_sizes N r1 r2).2.2 = N := by
  simp only [split_sizes]
  omega

/-- Witness for C3 at the spec's scenario: 100 samples, `train_ratio = 0.7`,
`test_val_ratio = 0.5` give sizes train 70, test 15, val 15, summing to 100. -/
theorem split_sizes_sum_witness :
    (0 : ℚ) < 7 / 10 ∧ (7 / 10 : ℚ) < 1 ∧ (0 : ℚ) < 1 / 2 ∧
    (1 / 2 : ℚ) < 1 ∧
    split_sizes 100 (7 / 10) (1 / 2) = (70, 15, 15) ∧
    (split_sizes 100 (7 / 10) (1 / 2)).1 +
      (split_sizes 100 (7 / 10) (1 / 2)).2.1 +
      (split_sizes 100 (7 / 10) (1 / 2)).2.2 = 100 :=
  ⟨by norm_num, by norm_num, by norm_num, by norm_num,
    by simp only [split_sizes]; norm_num [int_trunc],
    split_sizes_sum 100 (7 / 10) (1 / 2) (by norm_num) (by norm_num)
      (by norm_num) (by norm_num)⟩

/-- C9: with `warmup_ratio = 1` and `total_steps > 0`, the computed
`warmup_steps = int(total_steps * 1)` equals `total_steps`, and every step
`s >= warmup_steps` takes the decay branch whose denominator
`total_steps - warmup_steps` is zero, so evaluation raises
`ZeroDivisionError` (modelled as `none`). -/
theorem lr_decay_zero_division_at_ratio_one (t : ℤ) (ht : 0 < t) :
    warmup_steps_of t 1 = t ∧
    ∀ s : ℤ, t ≤ s → lr_warmup_linear_decay t t s = none := by
  constructor
  · unfold warmup_steps_of int_trunc
    rw [mul_one, if_pos (by exact_mod_cast ht.le)]
    exact Int.floor_intCast t
  · intro s hs
    unfold lr_warmup_linear_decay
    rw [if_neg (by omega), if_pos (by omega)]

/-- Witness for C9 at `total_steps = 100`: `warmup_steps` computes to 100 and
the multiplier evaluation at step 100 divides by zero. -/
theorem lr_decay_zero_division_at_ratio_one_witness :
    (0 : ℤ) < 100 ∧ warmup_steps_of 100 1 = 100 ∧
    lr_warmup_linear_decay 100 100 100 = none := by
  have h := lr_decay_zero_division_at_ratio_one 100 (by decide)
  exact ⟨by decide, h.1, h.2 100 (by decide)⟩

/-- C10: the returned best metric of `manage_best_model_and_metrics` is
`min(metric, best_val_metric)` when `lower_is_better` and
`max(metric, best_val_metric)` otherwise; hence across successive epoch-loop
iterations the tracked best value is monotonically non-increasing
(`lower_is_better = true`) or non-decreasing (`lower_is_better = false`). -/
theorem best_metric_min_max_and_monotone :
    (∀ (M : Type) (model best_model : M) (em : EvaluationMetric)
      (vm : Metrics) (best : PyFloat),
      (manage_best_model_and_metrics model em vm best best_model true).1 =
        pyMin (vm em) best ∧
      (manage_best_model_and_metrics model em vm best best_model false).1 =
        pyMax (vm em) best) ∧
    (∀ (M : Type) (em : EvaluationMetric) (vm : ℕ → Metrics) (ma : ℕ → M)
      (init : PyFloat × M) (n : ℕ),
      pyLe (epoch_loop_best true em vm ma init (n + 1)).1
        (epoch_loop_best true em vm ma init n).1 = true ∧
      pyLe (epoch_loop_best false em vm ma init n).1
        (epoch_loop_best false em vm ma init (n + 1)).1 = true) := by
  have hmin : ∀ (M : Type) (model best_model : M) (em : EvaluationMetric)
      (vm : Metrics) (best : PyFloat),
      (manage_best_model_and_metrics model em vm best best_model true).1 =
        pyMin (vm em) best := by
    intro M model best_model em vm best
    simp only [manage_best_model_and_metrics, pyMin]
    have := pyLe_eq_not_pyLt (vm em) best
    by_cases h : pyLt best (vm em) = true
    · rw [h] at this
      simp only [this]
      simp [h]
    · have hf : pyLt best (vm em) = false := by simp_all
      rw [hf] at this
      simp only [this]
      simp [hf]
  have hmax : ∀ (M : Type) (model best_model : M) (em : EvaluationMetric)
      (vm : Metrics) (best : PyFloat),
      (manage_best_model_and_metrics model em vm best best_model false).1 =
        pyMax (vm em) best := by
    intro M model best_model em vm best
    simp only [manage_best_model_and_metrics, pyMax]
    by_cases h : pyLt best (vm em) = true
    · have hf : pyLt (vm em) best = false := pyLt_asymm_false _ _ h
      simp [h, hf]
    · have hf : pyLt best (vm em) = false := by simp_all
      by_cases h2 : pyLt (vm em) best = true
      · simp [hf, h2]
      · have hf2 : pyLt (vm em) best = false := by simp_all
        have heq : best = vm em := pyLt_antisymm_eq _ _ hf hf2
        simp [hf, hf2, heq, pyLt_irrefl]
  refine ⟨fun M model best_model em vm best =>
    ⟨hmin M model best_model em vm best,
     hmax M model best_model em vm best⟩, ?_⟩
  intro M em vm ma init n
  constructor
  · have hstep : (epoch_loop_best true em vm ma init (n + 1)).1 =
        pyMin (vm n em) (epoch_loop_best true em vm ma init n).1 :=
      hmin M (ma n) (epoch_loop_best true em vm ma init n).2 em (vm n)
        (epoch_loop_best true em vm ma init n).1
    rw [hstep]
    exact pyLe_pyMin_right _ _
  · have hstep : (epoch_loop_best false em vm ma init (n + 1)).1 =
        pyMax (vm n em) (epoch_loop_best false em vm ma init n).1 :=
      hmax M (ma n) (epoch_loop_best false em vm ma init n).2 em (vm n)
        (epoch_loop_best false em vm ma init n).1
    rw [hstep]
    exact pyLe_pyMax_right _ _
